import Mathlib

set_option linter.unusedVariables false

/-!
Verification development for the tlend-partner-mock repository
(RFC-001 TLend Partner iframe integration, v2.2.0).

The repository is a browser test stand written in JavaScript.  This file
gives a shallow embedding of its protocol-relevant logic:

* a model of JavaScript runtime values (`JsValue`) sufficient for the
  truthiness / typeof / property-access idioms the code uses;
* the structural message validator `isIframeMessage` from the
  `@tlend/iframe-types` package (src/unnamed/part_003);
* the partner-mock application state and its message handlers from the
  embedded `partner-mock.js` listing of the RFC
  (src/RFC-001-TLEND-PARTNER-IFRAME-INTEGRATION.md, lines 1595-2825);
* the HMAC challenge payload codec `generatePayload` /
  `verifyPartnerPayload` from RFC section 12.3.

DOM rendering, logging and the TON Connect widget are external
collaborators; they are modelled by an `Env` record (values of the DOM
configuration inputs, availability of the iframe element) and by explicit
parameters standing for externally produced values (fresh request ids,
signing outcomes, the HMAC function).  Timers (`setTimeout`) are modelled
as explicit `Action.schedule` outputs; the scheduled callbacks are
separate functions invoked by the (modelled) event loop, exactly as the
browser invokes them.
-/

namespace TLendPartnerMock

/-- Model of a structured-cloneable JavaScript value as delivered by
`postMessage`.  `undef` is the value `undefined` (e.g. a missing
property). -/
inductive JsValue where
  | undef : JsValue
  | null : JsValue
  | bool (b : Bool) : JsValue
  | num (n : Int) : JsValue
  | str (s : String) : JsValue
  | arr (xs : List JsValue) : JsValue
  | obj (fields : List (String × JsValue)) : JsValue

namespace JsValue

/-- The JavaScript strict comparison `v === null`. -/
def isNull : JsValue → Bool
  | null => true
  | _ => false

/-- The JavaScript `typeof` operator (note `typeof null` is "object" and
arrays are objects). -/
def typeofStr : JsValue → String
  | undef => "undefined"
  | null => "object"
  | bool _ => "boolean"
  | num _ => "number"
  | str _ => "string"
  | arr _ => "object"
  | obj _ => "object"

/-- JavaScript truthiness: `undefined`, `null`, `false`, `0` and the empty
string are falsy; objects and arrays are always truthy. -/
def truthy : JsValue → Bool
  | undef => false
  | null => false
  | bool b => b
  | num n => n != 0
  | str s => s ≠ ""
  | arr _ => true
  | obj _ => true

/-- Property read `v[k]`.  On an object it looks the key up (object keys
are unique); on every other value it yields `undefined`.  The source only
dereferences possibly-null values through the `?.` operator or after an
object check, which this models. -/
def get : JsValue → String → JsValue
  | obj fields, k =>
    match fields.lookup k with
    | some v => v
    | none => undef
  | _, _ => undef

/-- A value on which plain (non-optional) member access does not throw:
anything except `null` and `undefined`. -/
def derefOk : JsValue → Bool
  | undef => false
  | null => false
  | _ => true

/-- The JavaScript `a || b` idiom used by the source for defaulting. -/
def orElse (a b : JsValue) : JsValue := if a.truthy then a else b

end JsValue

/-- Truthiness of the nullable strings held in application state and DOM
inputs (`null`/`undefined` and the empty string are falsy). -/
def strOptTruthy : Option String → Bool
  | some v => v ≠ ""
  | none => false

/-- The JavaScript `s || d` defaulting idiom on a nullable string. -/
def strOptOr (o : Option String) (d : String) : String :=
  match o with
  | some v => if v = "" then d else v
  | none => d

/-- The JavaScript `String.prototype.includes` test, via `splitOn`: a
pattern occurs in `s` exactly when splitting on it yields more than one
piece. -/
def strIncludes (s pat : String) : Bool := (s.splitOn pat).length ≥ 2

/-!
## Message validator (src/unnamed/part_003, `@tlend/iframe-types`)
-/

/-- The thirteen protocol message types accepted by
`isValidMessageType` (src/unnamed/part_003 lines 32-49). -/
def validMessageTypes : List String :=
  [ "TLEND_LOADED", "STYLES_UPGRADE", "SET_LOGO", "AUTH_CHECK_REQUEST",
    "AUTH_CHECK_RESPONSE", "AUTH_CREDENTIALS", "AUTH_RESULT", "AUTH_REQUEST",
    "TLEND_READY", "DISCONNECT", "REPAY_REQUEST", "REPAY_RESULT", "ERROR" ]

/-- Source `isValidMessageType` (src/unnamed/part_003 lines 32-49). -/
def isValidMessageType (t : String) : Bool := validMessageTypes.contains t

/-- Source `isIframeMessage` (src/unnamed/part_003 lines 15-27): rejects
anything that is not a non-null object, then requires a string `type`, a
numeric `timestamp`, and a known `type` value. -/
def isIframeMessage (v : JsValue) : Bool :=
  if v.typeofStr ≠ "object" || v.isNull then false
  else
    (v.get "type").typeofStr = "string" &&
    (v.get "timestamp").typeofStr = "number" &&
    (match v.get "type" with
     | JsValue.str t => isValidMessageType t
     | _ => false)

/-!
## Challenge payload codec (RFC section 12.3)

Payloads are modelled at the byte level (`List Nat`, each entry < 256):
`Buffer.toString(hex)` followed by `Buffer.from(_, hex)` is the
identity on bytes, so the hex leg of the round trip is elided.  The
external collaborator `crypto.createHmac(sha256, secret)` is modelled
as a function `hmac : List Nat → List Nat` from message bytes to the
32-byte digest; the shared secret is folded into that function.
-/

/-- Source `buffer.readUInt32BE(0)`: big-endian read of the first four
bytes. -/
def readUInt32BE (bs : List Nat) : Nat :=
  bs.getD 0 0 * 2 ^ 24 + bs.getD 1 0 * 2 ^ 16 + bs.getD 2 0 * 2 ^ 8 + bs.getD 3 0

/-- Source `buffer.writeUInt32BE(n, 0)` on a fresh 4-byte buffer
(defined for `n < 2 ^ 32`, where Node does not throw). -/
def writeUInt32BE (n : Nat) : List Nat :=
  [n / 2 ^ 24 % 256, n / 2 ^ 16 % 256, n / 2 ^ 8 % 256, n % 256]

/-- Source `generatePayload` (RFC lines 1133-1145): expiration is
`now + 15 * 60` seconds, encoded big-endian into 4 bytes, followed by the
28-byte truncation of the HMAC of those 4 bytes. `now` is
`Math.floor(Date.now() / 1000)` in seconds. -/
def generatePayload (hmac : List Nat → List Nat) (now : Nat) : List Nat :=
  let expirationTime := now + 15 * 60
  let expirationBuffer := writeUInt32BE expirationTime
  expirationBuffer ++ (hmac expirationBuffer).take 28

/-- Source `verifyPartnerPayload` (RFC lines 1150-1177): reject if the
decoded buffer is shorter than 32 bytes, reject if the leading big-endian
expiration is not strictly in the future or exceeds `now + 30 * 60`, then
compare bytes 4-31 against the recomputed 28-byte truncated HMAC
(`crypto.timingSafeEqual` on two 28-byte buffers is extensionally list
equality). -/
def verifyPartnerPayload (hmac : List Nat → List Nat) (now : Nat)
    (payloadBuffer : List Nat) : Bool :=
  if payloadBuffer.length < 32 then false
  else
    let expirationTimestamp := readUInt32BE payloadBuffer
    if expirationTimestamp ≤ now || expirationTimestamp > now + 30 * 60 then false
    else
      let receivedSignature := (payloadBuffer.drop 4).take 28
      let expectedSignature := (hmac (writeUInt32BE expirationTimestamp)).take 28
      receivedSignature = expectedSignature

/-!
## Partner mock application state (partner-mock.js listing, RFC lines 1595-2825)
-/

/-- The `type` tag of an entry in `state.pendingRequests`
(`AUTH_CHECK` or `AUTH_CREDENTIALS`). -/
inductive PendingKind where
  | AUTH_CHECK : PendingKind
  | AUTH_CREDENTIALS : PendingKind
deriving DecidableEq

/-- An entry of the `state.pendingRequests` map: the source stores
`{type, timestamp, timeout}`; the timer handle is represented by the
`Action.schedule` emitted when the entry is created. -/
structure PendingEntry where
  kind : PendingKind
  issuedAt : Nat
deriving DecidableEq

/-- The single `state.pendingRepayRequest` slot:
`{requestId, payload, timestamp}` captured from a REPAY_REQUEST
message. -/
structure PendingRepay where
  requestId : JsValue
  payload : JsValue
  timestamp : Nat

/-- The mutable application state of partner-mock.js (RFC lines
1621-1635), together with `CONFIG.TLEND_ORIGINS` (RFC lines 1605-1608),
which `handleMessage` mutates and therefore belongs to the state.
`state.tonConnectUI` is used only for truthiness, modelled as
`tonConnectAvailable`; the DOM cache `elements` is part of `Env`. -/
structure State where
  iframeLoaded : Bool
  tlendState : Option String
  walletConnected : Bool
  walletAddress : JsValue
  walletPublicKey : JsValue
  walletAccount : JsValue
  tonProof : JsValue
  pendingRequests : List (String × PendingEntry)
  pendingRepayRequest : Option PendingRepay
  tlendOrigin : Option String
  tlendVersion : JsValue
  tlendCapabilities : JsValue
  tonConnectAvailable : Bool
  tlendOrigins : List String

/-- The initial value of `state` and of `CONFIG.TLEND_ORIGINS`. -/
def initialState : State :=
  { iframeLoaded := false
    tlendState := none
    walletConnected := false
    walletAddress := JsValue.null
    walletPublicKey := JsValue.null
    walletAccount := JsValue.null
    tonProof := JsValue.null
    pendingRequests := []
    pendingRepayRequest := none
    tlendOrigin := none
    tlendVersion := JsValue.null
    tlendCapabilities := JsValue.arr []
    tonConnectAvailable := false
    tlendOrigins := ["https://tlend.co", "https://staging.tlend.co"] }

/-- The browser environment read by the handlers: values of the DOM
configuration inputs (each `elements.x?.value`, absent elements giving
`undefined`), availability of the iframe element queried by
`sendToTLend` and `loadIframe`, and the current clock `Date.now()` in
milliseconds. -/
structure Env where
  iframeAvailable : Bool
  containerAvailable : Bool
  tlendUrlField : Option String
  autoReadyMode : Option String
  skipAuth : Option String
  partnerTheme : Option String
  logoMode : Option String
  partnerName : Option String
  partnerId : Option String
  now : Nat

/-- Error record inside a REPAY_RESULT payload
(`{code, message, userCancelled}`; `message` and `userCancelled` may be
`undefined`). -/
structure RepayError where
  code : String
  message : Option String
  userCancelled : Option Bool
deriving DecidableEq

/-- Payload of an outbound REPAY_RESULT message. -/
structure RepayResultPayload where
  success : Bool
  transactionHash : Option String
  explorerUrl : Option String
  error : Option RepayError
deriving DecidableEq

/-- Outbound protocol messages built by the partner mock (each carries
the `Date.now()` timestamp it was built with). -/
inductive OutMessage where
  | stylesUpgrade (theme : String) (ts : Nat) : OutMessage
  | setLogo (mode pname : String) (ts : Nat) : OutMessage
  | disconnect (reason : String) (ts : Nat) : OutMessage
  | authCheckRequest (requestId : String) (walletAddress : JsValue) (ts : Nat) : OutMessage
  | authCredentials (requestId : String) (creds : JsValue) (partnerId : String)
      (ts : Nat) : OutMessage
  | repayResult (requestId : JsValue) (ts : Nat) (payload : RepayResultPayload) : OutMessage

/-- Callbacks the handlers hand to `setTimeout`; each is executed later
by the event loop (its semantics is the correspondingly named function
below). -/
inductive Scheduled where
  | runSendStylesUpgrade : Scheduled
  | runSendSetLogo : Scheduled
  | runSendAuthCheckRequest : Scheduled
  | runSendAuthCredentials : Scheduled
  | runAuthCheckTimeout (requestId : String) : Scheduled
  | runAuthCredentialsTimeout (requestId : String) : Scheduled
  | runSetReadyImmediate : Scheduled
  | runSimulateRepayResult (requestId : JsValue) : Scheduled

/-- Observable outputs of one synchronous handler run: an actual
`postMessage` to the iframe, or a `setTimeout` registration with its
delay in milliseconds. -/
inductive Action where
  | post (msg : OutMessage) (targetOrigin : String) : Action
  | schedule (cb : Scheduled) (delayMs : Nat) : Action

/-!
## Map operations on `state.pendingRequests`

The source uses a JavaScript `Map` keyed by request-id strings; it is
modelled as an association list with unique keys (`set` replaces or
appends, `delete` removes the key).
-/

/-- Membership test (`Map.get` returning a truthy entry). -/
def mapHas (m : List (String × PendingEntry)) (k : String) : Bool :=
  m.any (fun p => p.1 = k)

/-- The `Map.delete` operation. -/
def mapDelete (m : List (String × PendingEntry)) (k : String) :
    List (String × PendingEntry) :=
  m.filter (fun p => p.1 ≠ k)

/-- The `Map.set` operation. -/
def mapSet (m : List (String × PendingEntry)) (k : String) (v : PendingEntry) :
    List (String × PendingEntry) :=
  if mapHas m k then m.map (fun p => if p.1 = k then (k, v) else p)
  else m ++ [(k, v)]

/-!
## Message sending (RFC lines 1926-2029)
-/

/-- The target origin used by `sendToTLend`:
`state.tlendOrigin || "*"`. -/
def targetOrigin (s : State) : String :=
  match s.tlendOrigin with
  | some o => if o = "" then "*" else o
  | none => "*"

/-- Source `sendToTLend` (RFC lines 1926-1939): if the iframe element is
not available nothing is posted (the function returns `false`);
otherwise the message is posted to `state.tlendOrigin || "*"`. -/
def sendToTLend (env : Env) (s : State) (message : OutMessage) : List Action :=
  if env.iframeAvailable then [Action.post message (targetOrigin s)] else []

/-- Source `sendDisconnect` (RFC lines 2018-2029): builds a DISCONNECT
message with the given reason and hands it to `sendToTLend`; it mutates
no state. -/
def sendDisconnect (env : Env) (s : State) (reason : String) : List Action :=
  sendToTLend env s (OutMessage.disconnect reason env.now)

/-- Source `sendAuthCheckRequest` (RFC lines 2035-2064): guarded on a
truthy `state.walletAddress`; registers a pending entry of kind
AUTH_CHECK under a fresh request id, arms the 5000 ms
`handleAuthCheckTimeout` timer (`CONFIG.AUTH_CHECK_TIMEOUT`), and sends
the AUTH_CHECK_REQUEST message.  The fresh id produced by
`generateRequestId` is an input. -/
def sendAuthCheckRequest (s : State) (env : Env) (freshId : String) :
    State × List Action :=
  if ¬ s.walletAddress.truthy then (s, [])
  else
    let pend := mapSet s.pendingRequests freshId ⟨PendingKind.AUTH_CHECK, env.now⟩
    let s1 := { s with pendingRequests := pend }
    (s1, Action.schedule (Scheduled.runAuthCheckTimeout freshId) 5000 ::
      sendToTLend env s1 (OutMessage.authCheckRequest freshId s.walletAddress env.now))

/-- Source `sendAuthCredentials` (RFC lines 2098-2150): guarded on a
truthy `state.walletAddress`; uses the real account and proof when both
`state.walletAccount` and `state.tonProof` are truthy and otherwise the
`generateMockTonProof` output (an input here, as it is randomized);
registers a pending entry of kind AUTH_CREDENTIALS under a fresh id,
arms the 30000 ms `handleAuthCredentialsTimeout` timer
(`CONFIG.AUTH_CREDENTIALS_TIMEOUT`), and sends the AUTH_CREDENTIALS
message with `elements.partnerId?.value || "partner_xyz"`. -/
def sendAuthCredentials (s : State) (env : Env) (freshId : String)
    (mockCreds : JsValue) : State × List Action :=
  if ¬ s.walletAddress.truthy then (s, [])
  else
    let creds :=
      if s.walletAccount.truthy && s.tonProof.truthy then
        JsValue.obj [("account", s.walletAccount), ("proof", s.tonProof)]
      else mockCreds
    let pid := strOptOr env.partnerId "partner_xyz"
    let pend := mapSet s.pendingRequests freshId ⟨PendingKind.AUTH_CREDENTIALS, env.now⟩
    let s1 := { s with pendingRequests := pend }
    (s1, Action.schedule (Scheduled.runAuthCredentialsTimeout freshId) 30000 ::
      sendToTLend env s1 (OutMessage.authCredentials freshId creds pid env.now))

/-!
## Inbound message handlers (RFC lines 2066-2216, 2267-2610)
-/

/-- Source `updateTLendState` (RFC lines 1735-1772): records the new
lifecycle state string (the rest of the function only repaints the
UI). -/
def updateTLendState (s : State) (newState : String) : State :=
  { s with tlendState := some newState }

/-- Source `handleAuthCheckTimeout` (RFC lines 2066-2072): if the entry
is still pending it is removed (and the timeout logged); otherwise
nothing happens. -/
def handleAuthCheckTimeout (s : State) (requestId : String) : State × List Action :=
  if mapHas s.pendingRequests requestId then
    ({ s with pendingRequests := mapDelete s.pendingRequests requestId }, [])
  else (s, [])

/-- Source `handleAuthCredentialsTimeout` (RFC lines 2152-2165): if the
entry is still pending it is removed, and under
`elements.autoReadyMode?.value === "immediate"` the state is forced to
READY; otherwise nothing happens. -/
def handleAuthCredentialsTimeout (s : State) (env : Env) (requestId : String) :
    State × List Action :=
  if mapHas s.pendingRequests requestId then
    let s1 := { s with pendingRequests := mapDelete s.pendingRequests requestId }
    if env.autoReadyMode = some "immediate" then (updateTLendState s1 "READY", [])
    else (s1, [])
  else (s, [])

/-- The pending-entry cleanup shared by `handleAuthCheckResponse` and
`handleAuthResult`: `state.pendingRequests.get(requestId)` followed by
`clearTimeout` and `delete` when an entry is found.  A non-string
`requestId` (including `undefined`) matches no key of the string-keyed
map. -/
def clearPending (s : State) (requestId : JsValue) : State :=
  match requestId with
  | JsValue.str r =>
    if mapHas s.pendingRequests r then
      { s with pendingRequests := mapDelete s.pendingRequests r }
    else s
  | _ => s

/-- Source `handleAuthCheckResponse` (RFC lines 2074-2096): clears the
pending entry, then destructures the payload (destructuring `null` or
`undefined` throws, aborting with the cleanup already applied); when
`authenticated` or `matchesRequested` is falsy the state moves to
PENDING_AUTH and, if the wallet is connected, a
`sendAuthCredentials` call is scheduled after 500 ms.  Note that the
payload processing is not guarded by the pending lookup. -/
def handleAuthCheckResponse (s : State) (env : Env) (message : JsValue) :
    State × List Action :=
  let payload := message.get "payload"
  let s1 := clearPending s (message.get "requestId")
  if ¬ payload.derefOk then (s1, [])
  else
    if ¬ (payload.get "authenticated").truthy ||
        ¬ (payload.get "matchesRequested").truthy then
      let s2 := updateTLendState s1 "PENDING_AUTH"
      (s2, if s2.walletConnected then
        [Action.schedule Scheduled.runSendAuthCredentials 500] else [])
    else (s1, [])

/-- Source `handleAuthResult` (RFC lines 2167-2192): clears the pending
entry, then reads `payload.success` (a plain member access, throwing on
a `null` or `undefined` payload after the cleanup already applied).  On
success `state.walletAddress := payload.address`; on failure the state
becomes READY when `elements.autoReadyMode?.value === "immediate"` and
ERROR otherwise.  The payload processing is not guarded by the pending
lookup. -/
def handleAuthResult (s : State) (env : Env) (message : JsValue) :
    State × List Action :=
  let payload := message.get "payload"
  let s1 := clearPending s (message.get "requestId")
  if ¬ payload.derefOk then (s1, [])
  else if (payload.get "success").truthy then
    ({ s1 with walletAddress := payload.get "address" }, [])
  else
    if env.autoReadyMode = some "immediate" then (updateTLendState s1 "READY", [])
    else (updateTLendState s1 "ERROR", [])

/-- Source `handleAuthRequest` (RFC lines 2195-2216): the payload reason
is only logged; when `state.walletConnected && state.walletAddress` the
state moves to PENDING_AUTH and a `sendAuthCredentials` call is
scheduled after 500 ms, otherwise `sendDisconnect("session_expired")`
runs and the state is untouched. -/
def handleAuthRequest (s : State) (env : Env) (message : JsValue) :
    State × List Action :=
  if s.walletConnected && s.walletAddress.truthy then
    (updateTLendState s "PENDING_AUTH",
      [Action.schedule Scheduled.runSendAuthCredentials 500])
  else
    (s, sendDisconnect env s "session_expired")

/-- Source `handleRepayRequest` (RFC lines 2267-2281): fills the single
pending-repay slot with `{requestId, payload, timestamp}` (the
subsequent `showRepayPanel` / `showRepayModal` calls only render the
confirmation UI). -/
def handleRepayRequest (s : State) (env : Env) (message : JsValue) :
    State × List Action :=
  let pending : PendingRepay := ⟨message.get "requestId", message.get "payload", env.now⟩
  ({ s with pendingRepayRequest := some pending }, [])

/-- Outcome of the external `tonConnectUI.sendTransaction` call awaited
by `approveRepayRequest`: the `boc` of the sent transaction, or a thrown
error carrying a possibly-undefined `message` string. -/
inductive SignOutcome where
  | ok (boc : String) : SignOutcome
  | thrown (message : Option String) : SignOutcome

/-- Source `approveRepayRequest` (RFC lines 2354-2439): a no-op when no
repay request is pending.  With TON Connect available, a connected
wallet and a truthy `payload.transaction`, the awaited signing outcome
determines the REPAY_RESULT sent: success carries the `boc` hash and a
tonscan explorer link; a thrown error yields `success: false` with code
USER_REJECTED when the error message contains "rejected" and
TRANSACTION_FAILED otherwise, `userCancelled` mirroring that test.
Otherwise a simulated result is scheduled after 2000 ms.  In every
non-empty case the pending slot is cleared afterwards. -/
def approveRepayRequest (s : State) (env : Env) (sign : SignOutcome) :
    State × List Action :=
  match s.pendingRepayRequest with
  | none => (s, [])
  | some pending =>
    if s.tonConnectAvailable && s.walletConnected &&
        (pending.payload.get "transaction").truthy then
      match sign with
      | SignOutcome.ok boc =>
        let payload : RepayResultPayload :=
          { success := true
            transactionHash := some boc
            explorerUrl := some ("https://tonscan.org/tx/" ++ boc)
            error := none }
        ({ s with pendingRepayRequest := none },
          sendToTLend env s (OutMessage.repayResult pending.requestId env.now payload))
      | SignOutcome.thrown emsg =>
        let isRejected :=
          match emsg with
          | some t => strIncludes t "rejected"
          | none => false
        let payload : RepayResultPayload :=
          { success := false
            transactionHash := none
            explorerUrl := none
            error := some
              { code := if isRejected then "USER_REJECTED" else "TRANSACTION_FAILED"
                message := emsg
                userCancelled :=
                  match emsg with
                  | some t => some (strIncludes t "rejected")
                  | none => none } }
        ({ s with pendingRepayRequest := none },
          sendToTLend env s (OutMessage.repayResult pending.requestId env.now payload))
    else
      ({ s with pendingRepayRequest := none },
        [Action.schedule (Scheduled.runSimulateRepayResult pending.requestId) 2000])

/-- Source `rejectRepayRequest` (RFC lines 2441-2473): a no-op when no
repay request is pending; otherwise it sends exactly one REPAY_RESULT
with `success: false`, `error.code` the supplied reason (the parameter
defaults to USER_REJECTED at the call sites that omit it) and
`error.userCancelled` true exactly when the reason is USER_REJECTED,
then clears the pending slot. -/
def rejectRepayRequest (s : State) (env : Env) (reason : String) :
    State × List Action :=
  match s.pendingRepayRequest with
  | none => (s, [])
  | some pending =>
    let payload : RepayResultPayload :=
      { success := false
        transactionHash := none
        explorerUrl := none
        error := some
          { code := reason
            message := some (if reason = "USER_REJECTED" then
              "Transaction was rejected by user" else "Transaction failed")
            userCancelled := some (reason = "USER_REJECTED") } }
    ({ s with pendingRepayRequest := none },
      sendToTLend env s (OutMessage.repayResult pending.requestId env.now payload))

/-- Source `handleTLendLoaded` (RFC lines 2535-2571): records
`iframeLoaded`, `payload?.version` and `payload?.capabilities || []`,
moves the state to LOADING, schedules the styles and logo messages, and
then either schedules the auth check (no skip-auth) or, under skip-auth
with immediate auto-ready, schedules forcing READY. -/
def handleTLendLoaded (s : State) (env : Env) (message : JsValue) :
    State × List Action :=
  let payload := message.get "payload"
  let s1 := { s with
    iframeLoaded := true
    tlendVersion := payload.get "version"
    tlendCapabilities := (payload.get "capabilities").orElse (JsValue.arr []) }
  let s2 := updateTLendState s1 "LOADING"
  let base := [Action.schedule Scheduled.runSendStylesUpgrade 100,
    Action.schedule Scheduled.runSendSetLogo 200]
  if env.skipAuth = some "yes" then
    (s2, base ++ (if env.autoReadyMode = some "immediate" then
      [Action.schedule Scheduled.runSetReadyImmediate 500] else []))
  else
    (s2, base ++ [Action.schedule Scheduled.runSendAuthCheckRequest 300])

/-- Source `handleTLendReady` (RFC lines 2573-2601): records
`iframeLoaded`; without skip-auth and with a connected wallet it
schedules styles, logo and the auth check, otherwise it moves the state
to READY. -/
def handleTLendReady (s : State) (env : Env) (message : JsValue) :
    State × List Action :=
  let s1 := { s with iframeLoaded := true }
  if ¬ (env.skipAuth = some "yes") && s.walletConnected then
    (s1, [Action.schedule Scheduled.runSendStylesUpgrade 100,
      Action.schedule Scheduled.runSendSetLogo 200,
      Action.schedule Scheduled.runSendAuthCheckRequest 400])
  else
    (updateTLendState s1 "READY", [])

/-- Source `handleError` (RFC lines 2603-2610): logs
`payload.code`/`payload.message` (a plain member access, throwing on a
`null` or `undefined` payload), and moves the state to ERROR exactly
when `payload.recoverable` is falsy. -/
def handleError (s : State) (env : Env) (message : JsValue) :
    State × List Action :=
  let payload := message.get "payload"
  if ¬ payload.derefOk then (s, [])
  else if ¬ (payload.get "recoverable").truthy then
    (updateTLendState s "ERROR", [])
  else (s, [])

/-- The prologue of `handleMessage` (RFC lines 2480-2488): when
`state.tlendOrigin` is falsy the event origin is stored and, if absent,
appended to `CONFIG.TLEND_ORIGINS`.  This runs for every message event,
before any validation. -/
def originCapture (s : State) (origin : String) : State :=
  if strOptTruthy s.tlendOrigin then s
  else
    { s with
      tlendOrigin := some origin
      tlendOrigins :=
        if s.tlendOrigins.contains origin then s.tlendOrigins
        else s.tlendOrigins ++ [origin] }

/-- Source `handleMessage` (RFC lines 2479-2533): captures the first
sender origin, ignores events whose data is not a truthy object with a
truthy `type`, and otherwise dispatches on the `type` string (unknown
types are only logged).  No origin allow-list check is performed. -/
def handleMessage (s : State) (env : Env) (origin : String) (data : JsValue) :
    State × List Action :=
  let s1 := originCapture s origin
  if ¬ (data.truthy && data.typeofStr = "object" && (data.get "type").truthy) then
    (s1, [])
  else
    match data.get "type" with
    | JsValue.str "TLEND_LOADED" => handleTLendLoaded s1 env data
    | JsValue.str "AUTH_CHECK_RESPONSE" => handleAuthCheckResponse s1 env data
    | JsValue.str "AUTH_RESULT" => handleAuthResult s1 env data
    | JsValue.str "TLEND_READY" => handleTLendReady s1 env data
    | JsValue.str "REPAY_REQUEST" => handleRepayRequest s1 env data
    | JsValue.str "AUTH_REQUEST" => handleAuthRequest s1 env data
    | JsValue.str "ERROR" => handleError s1 env data
    | _ => (s1, [])

/-- Source `loadIframe` (RFC lines 2616-2673): guarded on a non-empty
URL field and the container element; resets `iframeLoaded`,
`tlendState`, `tlendOrigin`, `tlendVersion`, `tlendCapabilities` and the
pending-request map, creates the iframe, and ends in the LOADING
state. -/
def loadIframe (s : State) (env : Env) : State :=
  if ¬ strOptTruthy env.tlendUrlField then s
  else if ¬ env.containerAvailable then s
  else
    updateTLendState
      { s with
        iframeLoaded := false
        tlendOrigin := none
        tlendVersion := JsValue.null
        tlendCapabilities := JsValue.arr []
        pendingRequests := [] } "LOADING"

/-!
## Helper lemmas
-/

/-- Big-endian write followed by big-endian read of the first four bytes
recovers any value below `2 ^ 32`, whatever follows the four bytes. -/
theorem readUInt32BE_writeUInt32BE_append (n : Nat) (rest : List Nat)
    (h : n < 2 ^ 32) : readUInt32BE (writeUInt32BE n ++ rest) = n := by
  simp only [readUInt32BE, writeUInt32BE, List.cons_append, List.nil_append,
    List.getD_cons_zero, List.getD_cons_succ]
  omega

/-- The four-byte big-endian encoding always has length four. -/
theorem writeUInt32BE_length (n : Nat) : (writeUInt32BE n).length = 4 := rfl

/-- Characterization of `verifyPartnerPayload`: it succeeds exactly on
buffers of length at least 32 whose leading expiration is strictly in
the future, at most thirty minutes ahead, and whose bytes 4-31 match the
truncated recomputed HMAC. -/
theorem verifyPartnerPayload_eq_true_iff (hmac : List Nat → List Nat) (now : Nat)
    (payload : List Nat) :
    verifyPartnerPayload hmac now payload = true ↔
      (32 ≤ payload.length ∧ now < readUInt32BE payload ∧
       readUInt32BE payload ≤ now + 30 * 60 ∧
       (payload.drop 4).take 28 =
         (hmac (writeUInt32BE (readUInt32BE payload))).take 28) := by
  by_cases h1 : payload.length < 32
  · simp only [verifyPartnerPayload, h1, if_true, Bool.false_eq_true, false_iff]
    omega
  · by_cases h2 : readUInt32BE payload ≤ now
    · simp [verifyPartnerPayload, h1, h2]
    · by_cases h3 : readUInt32BE payload > now + 30 * 60
      · simp [verifyPartnerPayload, h1, h2, h3]
      · have e1 : 32 ≤ payload.length := by omega
        have e2 : now < readUInt32BE payload := by omega
        have e3 : readUInt32BE payload ≤ now + 30 * 60 := by omega
        simp [verifyPartnerPayload, h1, h2, h3, e1, e2, e3]

/-- The buffer issued by `generatePayload` has exactly 32 bytes when the
HMAC digests have 32 bytes. -/
theorem generatePayload_length (hmac : List Nat → List Nat) (now : Nat)
    (hlen : ∀ bs, (hmac bs).length = 32) :
    (generatePayload hmac now).length = 32 := by
  simp [generatePayload, writeUInt32BE_length, hlen]

/-- Dropping the four expiration bytes of an issued buffer leaves the
truncated HMAC tail. -/
theorem generatePayload_drop (hmac : List Nat → List Nat) (now : Nat) :
    (generatePayload hmac now).drop 4 =
      (hmac (writeUInt32BE (now + 15 * 60))).take 28 := by
  have h4 : (4 : Nat) = (writeUInt32BE (now + 15 * 60)).length := rfl
  simp only [generatePayload]
  rw [h4, List.drop_left]

/-- The pending-map cleanup touches only the `pendingRequests` field. -/
theorem clearPending_tlendState (s : State) (r : JsValue) :
    (clearPending s r).tlendState = s.tlendState := by
  unfold clearPending
  cases r <;> first | rfl | (dsimp only; split <;> rfl)

/-- The pending-map cleanup preserves the stored TLend origin. -/
theorem clearPending_tlendOrigin (s : State) (r : JsValue) :
    (clearPending s r).tlendOrigin = s.tlendOrigin := by
  unfold clearPending
  cases r <;> first | rfl | (dsimp only; split <;> rfl)

/-- After the cleanup for a string request id, that id is gone from the
pending map. -/
theorem clearPending_not_mapHas (s : State) (r : String) :
    mapHas (clearPending s (JsValue.str r)).pendingRequests r = false := by
  unfold clearPending
  dsimp only
  split
  · simp [mapHas, mapDelete, List.any_filter]
  · rename_i h
    simpa using h

/-- A sample environment: iframe and container present, all
configuration inputs at their defaults (no skip-auth, no auto-ready
override). -/
def sampleEnv : Env :=
  { iframeAvailable := true
    containerAvailable := true
    tlendUrlField := some "https://app.tlend.co"
    autoReadyMode := none
    skipAuth := none
    partnerTheme := none
    logoMode := none
    partnerName := none
    partnerId := none
    now := 1734290000000 }

/-!
## Claims
-/

/-- C7. Challenge codec round trip: for every HMAC collaborator with
32-byte digests and every clock value for which the issued expiration
fits a 4-byte big-endian field, verifying a payload freshly issued by
`generatePayload` under the same collaborator succeeds (the issuance
expiration `now + 15 * 60` lies within the valid window
`(now, now + 30 * 60]`). -/
theorem c7_challenge_roundtrip (hmac : List Nat → List Nat) (now : Nat)
    (hlen : ∀ bs, (hmac bs).length = 32) (hbound : now + 15 * 60 < 2 ^ 32) :
    verifyPartnerPayload hmac now (generatePayload hmac now) = true := by
  rw [verifyPartnerPayload_eq_true_iff]
  have hread : readUInt32BE (generatePayload hmac now) = now + 15 * 60 := by
    simp only [generatePayload]
    exact readUInt32BE_writeUInt32BE_append (now + 15 * 60) _ hbound
  refine ⟨by rw [generatePayload_length hmac now hlen], by omega, by omega, ?_⟩
  rw [hread, generatePayload_drop, List.take_take]
  simp

/-- C7 witness: the round trip evaluated at a concrete HMAC collaborator
and clock. -/
theorem c7_challenge_roundtrip_witness :
    verifyPartnerPayload (fun _ => List.replicate 32 7) 1000
      (generatePayload (fun _ => List.replicate 32 7) 1000) = true :=
  c7_challenge_roundtrip (fun _ => List.replicate 32 7) 1000
    (fun _ => by simp) (by norm_num)

/-- C6 counterexample: `verifyPartnerPayload` accepts a 33-byte decoded
payload (expiration 1500 against clock 1000, an all-zero HMAC tail under
an HMAC collaborator returning zero digests, and one trailing junk
byte), so acceptance does not require a decoded length of exactly 32. -/
theorem c6_counterexample_length_33_accepted :
    verifyPartnerPayload (fun _ => List.replicate 32 0) 1000
        (writeUInt32BE 1500 ++ List.replicate 29 0) = true ∧
      (writeUInt32BE 1500 ++ List.replicate 29 0).length ≠ 32 := by
  constructor
  · decide
  · decide

/-- C6 amended: the challenge-payload verifier returns true exactly for
a payload whose decoded byte length is at least 32 (longer buffers are
accepted, their extra bytes ignored), whose first-4-byte big-endian
expiration is strictly in the future and at most `now + 30 * 60`, and
whose bytes 4-31 equal the truncated HMAC of the 4-byte expiration
encoding; the constant-time property of the comparison is modelled
extensionally as list equality. -/
theorem c6_verify_conditions (hmac : List Nat → List Nat) (now : Nat)
    (payload : List Nat) :
    verifyPartnerPayload hmac now payload = true ↔
      (32 ≤ payload.length ∧ now < readUInt32BE payload ∧
       readUInt32BE payload ≤ now + 30 * 60 ∧
       (payload.drop 4).take 28 =
         (hmac (writeUInt32BE (readUInt32BE payload))).take 28) :=
  verifyPartnerPayload_eq_true_iff hmac now payload

/-- C8. On an AUTH_RESULT message whose payload has a falsy `success`,
the session state becomes READY when the immediate-ready override
(`autoReadyMode = "immediate"`) is set and ERROR otherwise. -/
theorem c8_auth_result_failure (s : State) (env : Env) (origin : String)
    (rid : JsValue) (fields : List (String × JsValue))
    (hsuccess : ((JsValue.obj fields).get "success").truthy = false) :
    ((handleMessage s env origin
        (JsValue.obj [("type", JsValue.str "AUTH_RESULT"), ("requestId", rid),
          ("payload", JsValue.obj fields)])).1).tlendState =
      some (if env.autoReadyMode = some "immediate" then "READY" else "ERROR") := by
  have hstep : handleMessage s env origin
      (JsValue.obj [("type", JsValue.str "AUTH_RESULT"), ("requestId", rid),
        ("payload", JsValue.obj fields)]) =
      handleAuthResult (originCapture s origin) env
        (JsValue.obj [("type", JsValue.str "AUTH_RESULT"), ("requestId", rid),
          ("payload", JsValue.obj fields)]) := rfl
  rw [hstep]
  unfold handleAuthResult
  have hpayload : (JsValue.obj [("type", JsValue.str "AUTH_RESULT"), ("requestId", rid),
      ("payload", JsValue.obj fields)]).get "payload" = JsValue.obj fields := rfl
  rw [hpayload]
  dsimp only
  rw [hsuccess]
  by_cases ha : env.autoReadyMode = some "immediate" <;>
    simp [ha, updateTLendState, JsValue.derefOk]

/-- C8 witness: with the override unset, an AUTH_RESULT failure drives
the initial state to ERROR. -/
theorem c8_auth_result_failure_witness :
    ((handleMessage initialState sampleEnv "https://tlend.co"
        (JsValue.obj [("type", JsValue.str "AUTH_RESULT"),
          ("requestId", JsValue.str "r1"),
          ("payload", JsValue.obj [("success", JsValue.bool false)])])).1).tlendState =
      some "ERROR" := by
  have h := c8_auth_result_failure initialState sampleEnv "https://tlend.co"
    (JsValue.str "r1") [("success", JsValue.bool false)] rfl
  simpa [sampleEnv] using h

/-- C10. With the single pending-repay slot empty, both the approve and
the reject operation return the state unchanged and emit no action at
all. -/
theorem c10_no_pending_repay_noop (s : State) (env : Env) (sign : SignOutcome)
    (reason : String) (h : s.pendingRepayRequest = none) :
    approveRepayRequest s env sign = (s, []) ∧
      rejectRepayRequest s env reason = (s, []) := by
  unfold approveRepayRequest rejectRepayRequest
  rw [h]
  exact ⟨rfl, rfl⟩

/-- C10 witness: approve and reject on the initial state (whose repay
slot is empty). -/
theorem c10_no_pending_repay_noop_witness :
    approveRepayRequest initialState sampleEnv (SignOutcome.ok "abc") =
        (initialState, []) ∧
      rejectRepayRequest initialState sampleEnv "USER_REJECTED" =
        (initialState, []) :=
  c10_no_pending_repay_noop initialState sampleEnv (SignOutcome.ok "abc")
    "USER_REJECTED" rfl

/-- A concrete pending repayment request used as a test fixture. -/
def pendingRepay1 : PendingRepay := ⟨JsValue.str "repay-1", JsValue.obj [], 0⟩

/-- A second concrete pending repayment request fixture. -/
def pendingRepay2 : PendingRepay := ⟨JsValue.str "repay-2", JsValue.obj [], 0⟩

/-- The initial state with the first fixture occupying the repay slot. -/
def stateWithRepay1 : State := { initialState with pendingRepayRequest := some pendingRepay1 }

/-- The initial state with the second fixture occupying the repay slot. -/
def stateWithRepay2 : State := { initialState with pendingRepayRequest := some pendingRepay2 }

/-- C5 counterexample: rejecting a pending repay request with the
supplied error code TRANSACTION_FAILED emits the single REPAY_RESULT
with `error.userCancelled = some false`, so the reject path does not
always set `userCancelled = true`. -/
theorem c5_counterexample_reject_not_user_cancelled :
    (rejectRepayRequest stateWithRepay1 sampleEnv "TRANSACTION_FAILED").2 =
      [Action.post (OutMessage.repayResult (JsValue.str "repay-1") 1734290000000
        { success := false
          transactionHash := none
          explorerUrl := none
          error := some { code := "TRANSACTION_FAILED"
                          message := some "Transaction failed"
                          userCancelled := some false } }) "*"] := rfl

/-- C5 amended: for every pending repayment request and supplied error
code, an explicit reject (no signing attempted) emits exactly one
REPAY_RESULT whose payload has `success = false`, carries the supplied
error code, and has `userCancelled = true` exactly when that code is
USER_REJECTED (hence in particular under the default reject reason);
the pending slot is cleared. -/
theorem c5_reject_emits_single_result (s : State) (env : Env) (reason : String)
    (pending : PendingRepay) (hp : s.pendingRepayRequest = some pending)
    (hifr : env.iframeAvailable = true) :
    rejectRepayRequest s env reason =
      ({ s with pendingRepayRequest := none },
        [Action.post (OutMessage.repayResult pending.requestId env.now
          { success := false
            transactionHash := none
            explorerUrl := none
            error := some { code := reason
                            message := some (if reason = "USER_REJECTED" then
                              "Transaction was rejected by user" else "Transaction failed")
                            userCancelled := some (reason = "USER_REJECTED") } })
          (targetOrigin s)]) := by
  unfold rejectRepayRequest
  rw [hp]
  simp [sendToTLend, hifr]

/-- C5 witness: rejecting with the default reason USER_REJECTED yields
the single failure result with `userCancelled = true`. -/
theorem c5_reject_emits_single_result_witness :
    rejectRepayRequest stateWithRepay2 sampleEnv "USER_REJECTED" =
      ({ initialState with pendingRepayRequest := none },
        [Action.post (OutMessage.repayResult (JsValue.str "repay-2") 1734290000000
          { success := false
            transactionHash := none
            explorerUrl := none
            error := some { code := "USER_REJECTED"
                            message := some "Transaction was rejected by user"
                            userCancelled := some true } }) "*"]) := by
  have h := c5_reject_emits_single_result stateWithRepay2
    sampleEnv "USER_REJECTED" pendingRepay2 rfl rfl
  simpa [sampleEnv, targetOrigin, initialState, stateWithRepay2, pendingRepay2] using h

/-- C4 counterexample: an AUTH_REQUEST with reason jwt_expired arriving
while the wallet is connected moves the session from READY to
PENDING_AUTH, so it does not stay in its current lifecycle state. -/
theorem c4_counterexample_reauth_changes_state :
    (((handleMessage
        { initialState with walletConnected := true
                            walletAddress := JsValue.str "0:abc"
                            tlendState := some "READY"
                            tlendOrigin := some "https://tlend.co" }
        sampleEnv "https://tlend.co"
        (JsValue.obj [("type", JsValue.str "AUTH_REQUEST"),
          ("timestamp", JsValue.num 1734290000000),
          ("payload", JsValue.obj [("reason", JsValue.str "jwt_expired")])])).1).tlendState
      = some "PENDING_AUTH") ∧ some "PENDING_AUTH" ≠ some "READY" := by
  refine ⟨rfl, ?_⟩
  simp

/-- C4 amended: on an AUTH_REQUEST re-authentication message with
reason in the protocol set, if the wallet is connected and a wallet
address is present the session transitions to PENDING_AUTH (not its
previous state) and a fresh AUTH_CREDENTIALS send is scheduled with no
disconnect notification; otherwise a DISCONNECT with reason
session_expired is emitted, no credentials are scheduled, and the state
is unchanged apart from first-origin capture. -/
theorem c4_reauth_behavior (s : State) (env : Env) (origin : String)
    (ts : JsValue) (reason : String)
    (hreason : reason = "jwt_expired" ∨ reason = "session_invalid" ∨
      reason = "storage_unavailable") :
    ((s.walletConnected && s.walletAddress.truthy) = true →
      handleMessage s env origin
          (JsValue.obj [("type", JsValue.str "AUTH_REQUEST"), ("timestamp", ts),
            ("payload", JsValue.obj [("reason", JsValue.str reason)])]) =
        (updateTLendState (originCapture s origin) "PENDING_AUTH",
          [Action.schedule Scheduled.runSendAuthCredentials 500])) ∧
    ((s.walletConnected && s.walletAddress.truthy) = false →
      handleMessage s env origin
          (JsValue.obj [("type", JsValue.str "AUTH_REQUEST"), ("timestamp", ts),
            ("payload", JsValue.obj [("reason", JsValue.str reason)])]) =
        (originCapture s origin,
          sendDisconnect env (originCapture s origin) "session_expired")) := by
  have hstep : handleMessage s env origin
      (JsValue.obj [("type", JsValue.str "AUTH_REQUEST"), ("timestamp", ts),
        ("payload", JsValue.obj [("reason", JsValue.str reason)])]) =
      handleAuthRequest (originCapture s origin) env
        (JsValue.obj [("type", JsValue.str "AUTH_REQUEST"), ("timestamp", ts),
          ("payload", JsValue.obj [("reason", JsValue.str reason)])]) := rfl
  have hwc : (originCapture s origin).walletConnected = s.walletConnected := by
    unfold originCapture
    split <;> rfl
  have hwa : (originCapture s origin).walletAddress = s.walletAddress := by
    unfold originCapture
    split <;> rfl
  constructor
  · intro h
    rw [hstep]
    unfold handleAuthRequest
    rw [hwc, hwa, h]
    rfl
  · intro h
    rw [hstep]
    unfold handleAuthRequest
    rw [hwc, hwa, h]
    rfl

/-- C4 witness: both branches evaluated concretely — a connected wallet
schedules fresh credentials after moving to PENDING_AUTH, and a
disconnected wallet triggers the session_expired DISCONNECT. -/
theorem c4_reauth_behavior_witness :
    (handleMessage
        { initialState with walletConnected := true
                            walletAddress := JsValue.str "0:abc"
                            tlendState := some "READY"
                            tlendOrigin := some "https://tlend.co" }
        sampleEnv "https://tlend.co"
        (JsValue.obj [("type", JsValue.str "AUTH_REQUEST"),
          ("timestamp", JsValue.num 1734290000000),
          ("payload", JsValue.obj [("reason", JsValue.str "jwt_expired")])]) =
      (updateTLendState
        { initialState with walletConnected := true
                            walletAddress := JsValue.str "0:abc"
                            tlendState := some "READY"
                            tlendOrigin := some "https://tlend.co" } "PENDING_AUTH",
        [Action.schedule Scheduled.runSendAuthCredentials 500])) ∧
    (handleMessage { initialState with tlendOrigin := some "https://tlend.co" }
        sampleEnv "https://tlend.co"
        (JsValue.obj [("type", JsValue.str "AUTH_REQUEST"),
          ("timestamp", JsValue.num 1734290000000),
          ("payload", JsValue.obj [("reason", JsValue.str "session_invalid")])]) =
      ({ initialState with tlendOrigin := some "https://tlend.co" },
        [Action.post (OutMessage.disconnect "session_expired" 1734290000000)
          "https://tlend.co"])) := by
  constructor
  · have h := (c4_reauth_behavior
      { initialState with walletConnected := true
                          walletAddress := JsValue.str "0:abc"
                          tlendState := some "READY"
                          tlendOrigin := some "https://tlend.co" }
      sampleEnv "https://tlend.co" (JsValue.num 1734290000000) "jwt_expired"
      (Or.inl rfl)).1 rfl
    simpa [originCapture, strOptTruthy] using h
  · have h := (c4_reauth_behavior
      { initialState with tlendOrigin := some "https://tlend.co" }
      sampleEnv "https://tlend.co" (JsValue.num 1734290000000) "session_invalid"
      (Or.inr (Or.inl rfl))).2 rfl
    simpa [originCapture, strOptTruthy, sendDisconnect, sendToTLend, sampleEnv,
      targetOrigin] using h

/-- C3 counterexample: an AUTH_CHECK_RESPONSE whose requestId has no
pending entry (timed out or never issued) is not a no-op — its payload
still drives the session from READY to PENDING_AUTH. -/
theorem c3_counterexample_late_reply_processed :
    (({ initialState with tlendState := some "READY"
                          tlendOrigin := some "https://tlend.co" } : State).pendingRequests
        = []) ∧
    (((handleMessage
        { initialState with tlendState := some "READY"
                            tlendOrigin := some "https://tlend.co" }
        sampleEnv "https://tlend.co"
        (JsValue.obj [("type", JsValue.str "AUTH_CHECK_RESPONSE"),
          ("requestId", JsValue.str "req-9"),
          ("payload", JsValue.obj [("authenticated", JsValue.bool false),
            ("matchesRequested", JsValue.bool false)])])).1).tlendState
      = some "PENDING_AUTH") ∧ some "PENDING_AUTH" ≠ some "READY" := by
  refine ⟨rfl, rfl, ?_⟩
  simp

/-- C3 amended: the pending entry of a correlated request is removed at
most once — the timeout callbacks are complete no-ops when the entry is
already gone, and after a reply carrying requestId `r` is handled the
entry for `r` is gone from the pending map, so a duplicate reply or a
late timeout firing cannot remove it again; the payload side effects of
AUTH_CHECK_RESPONSE and AUTH_RESULT, however, run on every delivery
(see the counterexample), so only the pending-map resolution is
exactly-once. -/
theorem c3_pending_resolved_at_most_once (env : Env) :
    (∀ (s : State) (r : String), mapHas s.pendingRequests r = false →
      handleAuthCheckTimeout s r = (s, []) ∧
      handleAuthCredentialsTimeout s env r = (s, [])) ∧
    (∀ (s : State) (msg : JsValue) (r : String),
      msg.get "requestId" = JsValue.str r →
      mapHas (handleAuthCheckResponse s env msg).1.pendingRequests r = false ∧
      mapHas (handleAuthResult s env msg).1.pendingRequests r = false) := by
  constructor
  · intro s r h
    constructor
    · unfold handleAuthCheckTimeout
      rw [h]
      rfl
    · unfold handleAuthCredentialsTimeout
      rw [h]
      rfl
  · intro s msg r hmsg
    have hkey := clearPending_not_mapHas s r
    constructor
    · unfold handleAuthCheckResponse
      rw [hmsg]
      dsimp only
      split_ifs <;> simpa [updateTLendState] using hkey
    · unfold handleAuthResult
      rw [hmsg]
      dsimp only
      split_ifs <;> simpa [updateTLendState] using hkey

/-- C3 witness: on the initial state (empty pending map) the timeout
callbacks are no-ops, and handling a reply for requestId req-9 leaves no
pending entry for it. -/
theorem c3_pending_resolved_at_most_once_witness :
    (handleAuthCheckTimeout initialState "req-9" = (initialState, []) ∧
      handleAuthCredentialsTimeout initialState sampleEnv "req-9" =
        (initialState, [])) ∧
    (mapHas (handleAuthCheckResponse initialState sampleEnv
        (JsValue.obj [("requestId", JsValue.str "req-9")])).1.pendingRequests "req-9"
      = false) := by
  refine ⟨(c3_pending_resolved_at_most_once sampleEnv).1 initialState "req-9" rfl, ?_⟩
  exact ((c3_pending_resolved_at_most_once sampleEnv).2 initialState
    (JsValue.obj [("requestId", JsValue.str "req-9")]) "req-9" rfl).1

/-- C2 counterexample: the payload consisting only of
`type = TLEND_LOADED` (no timestamp) is malformed for the validator,
yet `handleMessage` still processes it and mutates the state
(`iframeLoaded` flips to true). -/
theorem c2_counterexample_malformed_payload_mutates :
    isIframeMessage (JsValue.obj [("type", JsValue.str "TLEND_LOADED")]) = false ∧
    (((handleMessage { initialState with tlendOrigin := some "https://tlend.co" }
        sampleEnv "https://tlend.co"
        (JsValue.obj [("type", JsValue.str "TLEND_LOADED")])).1).iframeLoaded = true) ∧
    ({ initialState with tlendOrigin := some "https://tlend.co" } : State).iframeLoaded
      = false :=
  ⟨rfl, rfl, rfl⟩

/-- C2 amended: the validator returns false on every malformed payload
(non-object input, null, missing or non-string type, missing or
non-numeric timestamp, unknown type value); the message handler,
however, applies only its own weaker check — a payload that is not a
truthy object with a truthy `type` causes no state mutation beyond
first-origin capture and emits nothing, while a malformed payload
carrying a known `type` string (such as one with no timestamp) is
processed normally (see the counterexample). -/
theorem c2_validator_rejects_and_handler_gate :
    (∀ v : JsValue, v.typeofStr ≠ "object" → isIframeMessage v = false) ∧
    isIframeMessage JsValue.null = false ∧
    (∀ v : JsValue, (v.get "type").typeofStr ≠ "string" → isIframeMessage v = false) ∧
    (∀ v : JsValue, (v.get "timestamp").typeofStr ≠ "number" →
      isIframeMessage v = false) ∧
    (∀ (v : JsValue) (t : String), v.get "type" = JsValue.str t →
      isValidMessageType t = false → isIframeMessage v = false) ∧
    (∀ (s : State) (env : Env) (origin : String) (d : JsValue),
      (d.truthy && d.typeofStr = "object" && (d.get "type").truthy) = false →
      handleMessage s env origin d = (originCapture s origin, [])) := by
  refine ⟨?_, rfl, ?_, ?_, ?_, ?_⟩
  · intro v h
    unfold isIframeMessage
    rw [if_pos]
    simp [h]
  · intro v h
    unfold isIframeMessage
    split_ifs with h1
    · rfl
    · simp [h]
  · intro v h
    unfold isIframeMessage
    split_ifs with h1
    · rfl
    · simp [h]
  · intro v t ht h
    unfold isIframeMessage
    split_ifs with h1
    · rfl
    · rw [ht]
      simp [h]
  · intro s env origin d h
    unfold handleMessage
    rw [h]
    rfl

/-- C2 witness: the validator rejects representative malformed payloads
of each category, and the handler gate drops a numeric payload without
touching anything but the captured origin. -/
theorem c2_validator_rejects_and_handler_gate_witness :
    isIframeMessage (JsValue.num 5) = false ∧
    isIframeMessage JsValue.null = false ∧
    isIframeMessage (JsValue.obj [("type", JsValue.num 3),
      ("timestamp", JsValue.num 1)]) = false ∧
    isIframeMessage (JsValue.obj [("type", JsValue.str "TLEND_LOADED")]) = false ∧
    isIframeMessage (JsValue.obj [("type", JsValue.str "NOT_A_TYPE"),
      ("timestamp", JsValue.num 1)]) = false ∧
    handleMessage initialState sampleEnv "https://tlend.co" (JsValue.num 5) =
      (originCapture initialState "https://tlend.co", []) := by
  refine ⟨?_, ?_, ?_, ?_, ?_, ?_⟩
  · exact c2_validator_rejects_and_handler_gate.1 (JsValue.num 5) (by decide)
  · exact c2_validator_rejects_and_handler_gate.2.1
  · exact c2_validator_rejects_and_handler_gate.2.2.1
      (JsValue.obj [("type", JsValue.num 3), ("timestamp", JsValue.num 1)])
      (by decide)
  · exact c2_validator_rejects_and_handler_gate.2.2.2.1
      (JsValue.obj [("type", JsValue.str "TLEND_LOADED")])
      (by decide)
  · exact c2_validator_rejects_and_handler_gate.2.2.2.2.1
      (JsValue.obj [("type", JsValue.str "NOT_A_TYPE"), ("timestamp", JsValue.num 1)])
      "NOT_A_TYPE" rfl (by decide)
  · exact c2_validator_rejects_and_handler_gate.2.2.2.2.2 initialState sampleEnv
      "https://tlend.co" (JsValue.num 5) (by decide)

/-- The pending-map cleanup preserves the allow-list. -/
theorem clearPending_tlendOrigins (s : State) (r : JsValue) :
    (clearPending s r).tlendOrigins = s.tlendOrigins := by
  unfold clearPending
  cases r <;> first | rfl | (dsimp only; split <;> rfl)

/-- No dispatched handler touches the stored TLend origin or the
allow-list: after `handleMessage`, both fields hold exactly what the
origin-capture prologue left there. -/
theorem handleMessage_origin_fields (s : State) (env : Env) (origin : String)
    (d : JsValue) :
    ((handleMessage s env origin d).1).tlendOrigin =
        (originCapture s origin).tlendOrigin ∧
      ((handleMessage s env origin d).1).tlendOrigins =
        (originCapture s origin).tlendOrigins := by
  unfold handleMessage
  dsimp only
  split
  · exact ⟨rfl, rfl⟩
  · split
    · unfold handleTLendLoaded updateTLendState
      dsimp only
      split_ifs <;> exact ⟨rfl, rfl⟩
    · unfold handleAuthCheckResponse updateTLendState
      dsimp only
      split_ifs <;>
        simp [clearPending_tlendOrigin, clearPending_tlendOrigins]
    · unfold handleAuthResult updateTLendState
      dsimp only
      split_ifs <;>
        simp [clearPending_tlendOrigin, clearPending_tlendOrigins]
    · unfold handleTLendReady updateTLendState
      dsimp only
      split_ifs <;> exact ⟨rfl, rfl⟩
    · unfold handleRepayRequest
      exact ⟨rfl, rfl⟩
    · unfold handleAuthRequest updateTLendState
      split_ifs <;> exact ⟨rfl, rfl⟩
    · unfold handleError updateTLendState
      dsimp only
      split_ifs <;> exact ⟨rfl, rfl⟩
    · exact ⟨rfl, rfl⟩

/-- C9. Outbound target-origin invariant: with no stored remote origin
every outbound message targets the wildcard; with a stored (non-empty)
origin that origin is the target; the first inbound message of any
origin whatsoever stores that origin and appends it to the allow-list
when absent; once stored (non-empty), no message handling changes it;
and (re)loading the iframe resets the stored origin to null. -/
theorem c9_outbound_origin_invariant :
    (∀ s : State, s.tlendOrigin = none → targetOrigin s = "*") ∧
    (∀ (s : State) (o : String), s.tlendOrigin = some o → o ≠ "" →
      targetOrigin s = o) ∧
    (∀ (s : State) (env : Env) (origin : String) (d : JsValue),
      s.tlendOrigin = none →
      ((handleMessage s env origin d).1).tlendOrigin = some origin ∧
        ((handleMessage s env origin d).1).tlendOrigins =
          (if s.tlendOrigins.contains origin then s.tlendOrigins
           else s.tlendOrigins ++ [origin])) ∧
    (∀ (s : State) (env : Env) (origin : String) (d : JsValue) (o : String),
      s.tlendOrigin = some o → o ≠ "" →
      ((handleMessage s env origin d).1).tlendOrigin = some o) ∧
    (∀ (s : State) (env : Env), strOptTruthy env.tlendUrlField = true →
      env.containerAvailable = true → (loadIframe s env).tlendOrigin = none) := by
  refine ⟨?_, ?_, ?_, ?_, ?_⟩
  · intro s h
    unfold targetOrigin
    rw [h]
  · intro s o h ho
    unfold targetOrigin
    rw [h]
    simp [ho]
  · intro s env origin d h
    have hcap : originCapture s origin =
        { s with tlendOrigin := some origin,
                 tlendOrigins := if s.tlendOrigins.contains origin then s.tlendOrigins
                   else s.tlendOrigins ++ [origin] } := by
      unfold originCapture
      rw [h]
      rfl
    obtain ⟨h1, h2⟩ := handleMessage_origin_fields s env origin d
    rw [h1, h2, hcap]
    exact ⟨rfl, rfl⟩
  · intro s env origin d o h ho
    have hcap : originCapture s origin = s := by
      unfold originCapture
      rw [h]
      simp [strOptTruthy, ho]
    obtain ⟨h1, _⟩ := handleMessage_origin_fields s env origin d
    rw [h1, hcap, h]
  · intro s env h1 h2
    unfold loadIframe
    rw [h1, h2]
    rfl

/-- C9 witness: the five parts of the invariant evaluated at concrete
states, origins and messages. -/
theorem c9_outbound_origin_invariant_witness :
    targetOrigin initialState = "*" ∧
    targetOrigin { initialState with tlendOrigin := some "https://tlend.co" } =
      "https://tlend.co" ∧
    ((handleMessage initialState sampleEnv "https://first.example"
        (JsValue.num 0)).1).tlendOrigin = some "https://first.example" ∧
    ((handleMessage { initialState with tlendOrigin := some "https://tlend.co" }
        sampleEnv "https://other.example" (JsValue.num 0)).1).tlendOrigin =
      some "https://tlend.co" ∧
    (loadIframe initialState sampleEnv).tlendOrigin = none := by
  refine ⟨?_, ?_, ?_, ?_, ?_⟩
  · exact c9_outbound_origin_invariant.1 initialState rfl
  · exact c9_outbound_origin_invariant.2.1
      { initialState with tlendOrigin := some "https://tlend.co" }
      "https://tlend.co" rfl (by decide)
  · exact (c9_outbound_origin_invariant.2.2.1 initialState sampleEnv
      "https://first.example" (JsValue.num 0) rfl).1
  · exact c9_outbound_origin_invariant.2.2.2.1
      { initialState with tlendOrigin := some "https://tlend.co" }
      sampleEnv "https://other.example" (JsValue.num 0) "https://tlend.co" rfl
      (by decide)
  · exact c9_outbound_origin_invariant.2.2.2.2 initialState sampleEnv rfl rfl

/-- The origin of a sender that is not in the configured allow-list. -/
def evilOrigin : String := "https://evil.example"

/-- A well-formed TLEND_LOADED envelope used to probe the missing origin
gate. -/
def validLoadedMsg : JsValue :=
  JsValue.obj [("type", JsValue.str "TLEND_LOADED"),
    ("timestamp", JsValue.num 1734290000000),
    ("payload", JsValue.obj [("version", JsValue.str "2.2.0"),
      ("capabilities", JsValue.arr [])])]

/-- C1. The code at the failing input: a valid envelope from an origin
outside `CONFIG.TLEND_ORIGINS` is fully processed by `handleMessage` —
the state mutates (`iframeLoaded` set, lifecycle moved to LOADING), the
foreign origin is stored and appended to the allow-list, and three
outbound sends are scheduled in response — contradicting both the claim
and the mandate of the RFC itself (sections 4.2 and 10.1) that unauthorized
origins be dropped with no processing. -/
theorem c1_unauthorized_origin_is_processed :
    initialState.tlendOrigins.contains evilOrigin = false ∧
    isIframeMessage validLoadedMsg = true ∧
    ((handleMessage initialState sampleEnv evilOrigin validLoadedMsg).1).iframeLoaded
      = true ∧
    ((handleMessage initialState sampleEnv evilOrigin validLoadedMsg).1).tlendState
      = some "LOADING" ∧
    ((handleMessage initialState sampleEnv evilOrigin validLoadedMsg).1).tlendOrigin
      = some evilOrigin ∧
    ((handleMessage initialState sampleEnv evilOrigin validLoadedMsg).1).tlendOrigins
      = initialState.tlendOrigins ++ [evilOrigin] ∧
    ((handleMessage initialState sampleEnv evilOrigin validLoadedMsg).2).length = 3 :=
  ⟨by decide, by decide, rfl, rfl, rfl, rfl, rfl⟩

end TLendPartnerMock
